import Mathlib

/-!
Verification development for the multi-modal RAG agent
(`multimodal_rag_agent.py`).  The pipeline stages (`_generate_embedding`,
`_search_index`, `_generate_response`), the orchestrating `chat` method and
the FastAPI `/chat` endpoint are shallowly embedded: external services are a
record of functions returning `Except`, Python exceptions are the `.error`
branch of `Except String`, and Python/JSON dynamic values are the `JValue`
inductive.  Floating point numbers of the JSON payloads are modelled as
rationals.
-/

/-- Model of a parsed JSON / dynamic Python value (dicts keep key order, as
Python dicts do; a parsed JSON object has pairwise distinct keys). -/
inductive JValue where
  | jnull : JValue
  | jbool : Bool → JValue
  | jnum : Rat → JValue
  | jstr : String → JValue
  | jarr : List JValue → JValue
  | jobj : List (String × JValue) → JValue
deriving Repr

/-- Python `d.get(key, default)`: succeeds with the value (or the default)
when the receiver is a dict, raises `AttributeError` otherwise. -/
def pyDictGet (v : JValue) (key : String) (dflt : JValue) : Except String JValue :=
  match v with
  | .jobj fields =>
      match fields.lookup key with
      | some w => .ok w
      | none => .ok dflt
  | _ => .error "AttributeError: object has no attribute get"

/-- Python iteration (`for doc in results`): lists yield their elements,
strings their characters, dicts their keys; other values raise `TypeError`. -/
def pyIter (v : JValue) : Except String (List JValue) :=
  match v with
  | .jarr xs => .ok xs
  | .jstr s => .ok (s.toList.map (fun c => .jstr (String.singleton c)))
  | .jobj fields => .ok (fields.map (fun f => .jstr f.1))
  | _ => .error "TypeError: object is not iterable"

/-- Lookup of a key in a dict-modelling `JValue`; `none` when the key is
absent or the value is not a dict. -/
def pyLookup (v : JValue) (key : String) : Option JValue :=
  match v with
  | .jobj fields => fields.lookup key
  | _ => none

/-- Python `key in result` on a dict. -/
def pyHasKey (v : JValue) (key : String) : Bool :=
  (pyLookup v key).isSome

/-- Agent configuration, as read from the environment in `__init__`
(lines 28-42 of the source). -/
structure Config where
  azure_ai_endpoint : String
  embedding_model : String
  chat_model : String
  search_endpoint : String
  search_index : String
  auth_mode : String
  search_api_key : String
deriving Repr

/-- One embedding datum of the embeddings response (`response.data[i]`). -/
structure EmbeddingDatum where
  embedding : List Rat
deriving Repr, DecidableEq

/-- Response of `openai_client.embeddings.create`. -/
structure EmbeddingsResponse where
  data : List EmbeddingDatum
deriving Repr, DecidableEq

/-- One chat message `{"role": ..., "content": ...}` of the completion
request. -/
structure ChatMessage where
  role : String
  content : String
deriving Repr, DecidableEq

/-- The `message` of one completion choice (`choice.message.content`). -/
structure ChoiceMessage where
  content : String
deriving Repr, DecidableEq

/-- One completion choice. -/
structure Choice where
  message : ChoiceMessage
deriving Repr, DecidableEq

/-- Response of `openai_client.chat.completions.create`. -/
structure Completion where
  choices : List Choice
deriving Repr, DecidableEq

/-- An HTTP response as seen through `requests`: status code and parsed
JSON body. -/
structure HttpResponse where
  status_code : Nat
  body : JValue
deriving Repr

/-- The external collaborators of the agent.  Every network effect of the
pipeline goes through one of these functions; an `.error` result models the
client library raising an exception. -/
structure Services where
  embeddings_create : String → String → Except String EmbeddingsResponse
  get_token : String → Except String String
  http_post : String → List (String × String) → JValue → Except String HttpResponse
  chat_completions_create : String → List ChatMessage → Rat → Except String Completion

/-- Embedding of `_generate_embedding` (source lines 94-100): call the
embeddings service with the text and the configured model, take
`data[0].embedding` (an empty `data` raises `IndexError`). -/
def generate_embedding (cfg : Config) (svc : Services) (text : String) :
    Except String (List Rat) := do
  let response ← svc.embeddings_create text cfg.embedding_model
  match response.data with
  | [] => .error "IndexError: list index out of range"
  | d :: _ => .ok d.embedding

/-- The JSON body of the search request (source lines 119-128). -/
def searchBody (query_embedding : List Rat) (top_k : Int) : JValue :=
  .jobj [("count", .jbool true),
         ("select", .jstr "content_text, document_title"),
         ("vectorQueries", .jarr [
            .jobj [("vector", .jarr (query_embedding.map (fun r => .jnum r))),
                   ("k", .jnum (top_k : Rat)),
                   ("fields", .jstr "content_embedding"),
                   ("kind", .jstr "vector")]])]

/-- The per-document reshaping of the list comprehension in `_search_index`
(source lines 134-141): total defaults for the three selected fields; a
non-dict document raises inside `doc.get`. -/
def toSourceRecord (doc : JValue) : Except String JValue := do
  let chunk ← pyDictGet doc "content_text" (.jstr "")
  let title ← pyDictGet doc "document_title" (.jstr "Unknown")
  let score ← pyDictGet doc "@search.score" (.jnum 0)
  .ok (.jobj [("chunk", chunk), ("title", title), ("score", score)])

/-- Embedding of `_search_index` (source lines 102-141): build the request
URL and auth headers, POST the vector query, `raise_for_status`, read
`value` (default `[]`) from the response JSON and reshape every matched
document. -/
def search_index (cfg : Config) (svc : Services) (query_embedding : List Rat)
    (top_k : Int) : Except String (List JValue) := do
  let url := cfg.search_endpoint ++ "/indexes/" ++ cfg.search_index ++
    "/docs/search?api-version=2023-11-01"
  let headers ←
    if cfg.auth_mode == "entra" then do
      let token ← svc.get_token "https://search.azure.com/.default"
      pure [("Content-Type", "application/json"),
            ("Authorization", "Bearer " ++ token)]
    else
      pure [("Content-Type", "application/json"),
            ("api-key", cfg.search_api_key)]
  let response ← svc.http_post url headers (searchBody query_embedding top_k)
  if 400 ≤ response.status_code ∧ response.status_code < 600 then
    .error ("HTTPError: status " ++ toString response.status_code)
  else do
    let results ← pyDictGet response.body "value" (.jarr [])
    let docs ← pyIter results
    docs.mapM toSourceRecord

/-- The fixed system instruction of the agent (source lines 45-67). -/
def system_prompt : String :=
  "\nYou are a professional RAG-based assistant whose context comes exclusively from a database in Azure AI Search.\n\nAlways follow these rules:\n\n1. Answer strictly from the context provided. Do not invent, assume, or add details outside the given context.\n2. If no relevant information is available in the context, politely say so.\n3. Do not include any external links, citations, or references unless they are explicitly present in the context object.\n4. Context format: The system will pass a Python list of objects, each containing:\n   \x7b\n     \"chunk\": \"the content (text, JSON, transcript, or description)\",\n     \"title\": \"the document title\",\n     \"score\": \"the relevancy score\"\n   \x7d\n   These are the top matches based on cosine similarity with the user query.\n5. Style & tone:\n   - Respond in a professional, natural way, as if conversing with a human.\n   - Structure answers clearly and concisely.\n   - If the context contains a field such as \x27url\x27, \x27video_url\x27, or \x27image_url\x27, include it as a clickable hyperlink in your response.\n   - Reference the source document titles when appropriate to help users understand where the information comes from.\n\nYour role is to act like a knowledgeable human assistant who can reference the provided information smoothly and contextually, across any modality (text, image, video, or audio).\n"

/-- Hex digit character for a value below 16. -/
def hexDigit (n : Nat) : Char :=
  if n < 10 then Char.ofNat (48 + n) else Char.ofNat (87 + n)

/-- Four lowercase hex digits of `n % 65536`, as in a JSON `\uXXXX` escape. -/
def hex4 (n : Nat) : String :=
  String.mk [hexDigit (n / 4096 % 16), hexDigit (n / 256 % 16),
             hexDigit (n / 16 % 16), hexDigit (n % 16)]

/-- JSON escaping of one character as `json.dumps` does with its default
`ensure_ascii=True`: short escapes for the common control characters,
`\uXXXX` (with surrogate pairs above the BMP) for other non-printable or
non-ASCII characters. -/
def escapeChar (c : Char) : String :=
  if c = Char.ofNat 34 then "\\\""
  else if c = Char.ofNat 92 then "\\\\"
  else if c = Char.ofNat 10 then "\\n"
  else if c = Char.ofNat 13 then "\\r"
  else if c = Char.ofNat 9 then "\\t"
  else if c = Char.ofNat 8 then "\\b"
  else if c = Char.ofNat 12 then "\\f"
  else if c.toNat < 32 ∨ 126 < c.toNat then
    if 65536 ≤ c.toNat then
      let v := c.toNat - 65536
      "\\u" ++ hex4 (55296 + v / 1024) ++ "\\u" ++ hex4 (56320 + v % 1024)
    else
      "\\u" ++ hex4 c.toNat
  else
    String.singleton c

/-- A JSON string literal for `s`, escaped as `json.dumps` escapes it. -/
def pyJsonStr (s : String) : String :=
  "\"" ++ String.join (s.toList.map escapeChar) ++ "\""

/-- Decimal rendering of a JSON number.  Integers render as Python ints do;
for non-integral rationals this is a faithful-shape stand-in for Python
float `repr` (whose shortest-round-trip digits a rational model cannot
reproduce bit-for-bit). -/
def renderRat (q : Rat) : String :=
  if q.den = 1 then toString q.num
  else toString q.num ++ "/" ++ toString q.den

/-- `n` spaces. -/
def spaces (n : Nat) : String :=
  String.mk (List.replicate n ' ')

mutual

/-- Serialization of a `JValue` at nesting depth `d`, following
`json.dumps(obj, indent=2)`: containers spread one element per line,
indented two spaces per depth level; empty containers stay inline. -/
def dumpVal : JValue → Nat → String
  | .jnull, _ => "null"
  | .jbool true, _ => "true"
  | .jbool false, _ => "false"
  | .jnum q, _ => renderRat q
  | .jstr s, _ => pyJsonStr s
  | .jarr [], _ => "[]"
  | .jarr (x :: xs), d =>
      "[\n" ++ dumpItems (x :: xs) (d + 1) ++ "\n" ++ spaces (2 * d) ++ "]"
  | .jobj [], _ => "\x7b\x7d"
  | .jobj (f :: fs), d =>
      "\x7b\n" ++ dumpFields (f :: fs) (d + 1) ++ "\n" ++ spaces (2 * d) ++ "\x7d"

/-- Comma-and-newline separated array items, each indented to depth `d`. -/
def dumpItems : List JValue → Nat → String
  | [], _ => ""
  | [x], d => spaces (2 * d) ++ dumpVal x d
  | x :: y :: xs, d =>
      spaces (2 * d) ++ dumpVal x d ++ ",\n" ++ dumpItems (y :: xs) d

/-- Comma-and-newline separated object fields, each indented to depth `d`. -/
def dumpFields : List (String × JValue) → Nat → String
  | [], _ => ""
  | [(k, v)], d => spaces (2 * d) ++ pyJsonStr k ++ ": " ++ dumpVal v d
  | (k, v) :: f :: fs, d =>
      spaces (2 * d) ++ pyJsonStr k ++ ": " ++ dumpVal v d ++ ",\n" ++
        dumpFields (f :: fs) d

end

/-- `json.dumps(v, indent=2)`. -/
def pyJsonDumps (v : JValue) : String :=
  dumpVal v 0

/-- The user message of the prompt (source line 145):
`f"The user query is: {query}\nThe context is: {json.dumps(context, indent=2)}"`. -/
def user_message_text (query : String) (context : List JValue) : String :=
  "The user query is: " ++ query ++ "\nThe context is: " ++
    pyJsonDumps (.jarr context)

/-- Embedding of `_generate_response` (source lines 143-156): a two-message
prompt (system instruction then user message), one completion call at
temperature 0.7 (the rational 7/10 here), `choices[0].message.content` of
the result (an empty `choices` raises `IndexError`). -/
def generate_response (cfg : Config) (svc : Services) (query : String)
    (context : List JValue) : Except String String := do
  let response ← svc.chat_completions_create cfg.chat_model
    [⟨"system", system_prompt⟩, ⟨"user", user_message_text query context⟩]
    (7 / 10 : Rat)
  match response.choices with
  | [] => .error "IndexError: list index out of range"
  | c :: _ => .ok c.message.content

/-- The body of the `try` block of `chat` (source lines 169-183): the three
stages in sequence, the generated response paired with the retrieval
context. -/
def chatPipeline (cfg : Config) (svc : Services) (user_message : String)
    (top_k : Int) : Except String (String × List JValue) := do
  let query_embedding ← generate_embedding cfg svc user_message
  let context ← search_index cfg svc query_embedding top_k
  let response ← generate_response cfg svc user_message context
  .ok (response, context)

/-- Embedding of `chat` (source lines 158-191): on success the three-key
envelope; on any stage exception the degraded four-key envelope with the
exception text. -/
def chat (cfg : Config) (svc : Services) (user_message : String)
    (top_k : Int) : JValue :=
  match chatPipeline cfg svc user_message top_k with
  | .ok (response, context) =>
      .jobj [("response", .jstr response),
             ("sources", .jarr context),
             ("query", .jstr user_message)]
  | .error e =>
      .jobj [("response",
              .jstr ("I encountered an error while processing your request: " ++ e)),
             ("sources", .jarr []),
             ("query", .jstr user_message),
             ("error", .jstr e)]

/-- The default of the `top_k` parameter of `chat` (source line 158) and of
the `top_k` field of `ChatRequest` (source line 294). -/
def chat_top_k_default : Int := 5

/-- `chat` called without an explicit `top_k`. -/
def chat_default (cfg : Config) (svc : Services) (user_message : String) :
    JValue :=
  chat cfg svc user_message chat_top_k_default

/-- Outcome of one HTTP endpoint invocation: a 200 body, or an
`HTTPException` with a status code and a detail string. -/
inductive EndpointResult where
  | ok : JValue → EndpointResult
  | httpError : Nat → String → EndpointResult
deriving Repr

/-- `str` of a starlette `HTTPException`: `f"{status_code}: {detail}"`. -/
def httpExceptionStr (status : Nat) (detail : String) : String :=
  toString status ++ ": " ++ detail

/-- `result["error"]` as a string: `chat` envelopes always store the error
text as a string under `"error"`. -/
def pyGetItemStr (v : JValue) (key : String) : String :=
  match pyLookup v key with
  | some (.jstr s) => s
  | _ => ""

/-- Embedding of the `POST /chat` endpoint (source lines 309-318): run
`agent.chat`; when the result carries an `"error"` key, the inner
`HTTPException(500, result["error"])` is itself caught by the blanket
`except Exception` and re-raised as `HTTPException(500, str(e))`, so the
surfaced detail is `"500: "` followed by the error text; otherwise the
envelope is returned as the 200 body. -/
def chat_endpoint (cfg : Config) (svc : Services) (message : String)
    (top_k : Int) : EndpointResult :=
  let result := chat cfg svc message top_k
  if pyHasKey result "error" then
    .httpError 500 (httpExceptionStr 500 (pyGetItemStr result "error"))
  else
    .ok result

/-- The `sources` field of an envelope, as a list (empty when absent or not
a list). -/
def envelopeSources (v : JValue) : List JValue :=
  match pyLookup v "sources" with
  | some (.jarr xs) => xs
  | _ => []

/-- Contract of the external vector-search service for the `k` of a vector
query (Azure AI Search returns at most `k` matches): whenever a POST of a
`searchBody` with limit `k` succeeds and the response body's `value` is an
array, that array has at most `k` elements. -/
def SearchHonorsK (svc : Services) : Prop :=
  ∀ url headers emb k r vs,
    svc.http_post url headers (searchBody emb k) = .ok r →
    pyDictGet r.body "value" (.jarr []) = .ok (.jarr vs) →
    vs.length ≤ k.toNat

/-- A matched document as the search service returns it (the scenario of
the spec's testable properties). -/
def doc0 : JValue :=
  .jobj [("content_text", .jstr "BMW pursues circularity via..."),
         ("document_title", .jstr "Sustainability Report 2023"),
         ("@search.score", .jnum (87 / 100 : Rat))]

/-- The reshaped record `_search_index` builds from `doc0`. -/
def rec0 : JValue :=
  .jobj [("chunk", .jstr "BMW pursues circularity via..."),
         ("title", .jstr "Sustainability Report 2023"),
         ("score", .jnum (87 / 100 : Rat))]

/-- A concrete configuration for evaluating the pipeline. -/
def cfg0 : Config :=
  { azure_ai_endpoint := "https://example.openai.azure.com"
    embedding_model := "text-embedding-3-large"
    chat_model := "gpt-4o"
    search_endpoint := "https://example.search.windows.net"
    search_index := "multi-modal-rag-index"
    auth_mode := "entra"
    search_api_key := "" }

/-- Concrete services in which every stage succeeds: the embedding is
`[1]`, the search finds `doc0`, the completion text is `"GENERATED"`. -/
def svcOk : Services :=
  { embeddings_create := fun _ _ => .ok ⟨[⟨[(1 : Rat)]⟩]⟩
    get_token := fun _ => .ok "tok"
    http_post := fun _ _ _ => .ok ⟨200, .jobj [("value", .jarr [doc0])]⟩
    chat_completions_create := fun _ _ _ => .ok ⟨[⟨⟨"GENERATED"⟩⟩]⟩ }

/-- Services in which the embedding stage raises with text `"boom"`. -/
def svcEmbedFail : Services :=
  { svcOk with embeddings_create := fun _ _ => .error "boom" }

/-- Services in which the search succeeds with zero matches. -/
def svcEmptySearch : Services :=
  { svcOk with http_post := fun _ _ _ => .ok ⟨200, .jobj [("value", .jarr [])]⟩ }

/-! ### Helper lemmas -/

/-- Bind of a successful `Except` computation. -/
theorem except_bind_ok {ε α β : Type} (a : α) (f : α → Except ε β) :
    ((Except.ok a : Except ε α) >>= f) = f a := rfl

/-- Bind of a failed `Except` computation. -/
theorem except_bind_error {ε α β : Type} (e : ε) (f : α → Except ε β) :
    ((Except.error e : Except ε α) >>= f) = Except.error e := rfl

/-- A successful `mapM` over `Except` preserves the list length. -/
theorem mapM_ok_length {α β : Type} (f : α → Except String β) :
    ∀ (xs : List α) (ys : List β), xs.mapM f = .ok ys → ys.length = xs.length := by
  intro xs
  induction xs with
  | nil =>
    intro ys h
    simp only [List.mapM_nil] at h
    cases h
    rfl
  | cons a as ih =>
    intro ys h
    rw [List.mapM_cons] at h
    cases hf : f a with
    | error e => rw [hf, except_bind_error] at h; cases h
    | ok b =>
      rw [hf, except_bind_ok] at h
      cases hm : as.mapM f with
      | error e => rw [hm, except_bind_error] at h; cases h
      | ok bs =>
        rw [hm, except_bind_ok] at h
        cases h
        simp [ih bs hm]

/-- Every element of a successful `mapM` image is the successful image of
some list element. -/
theorem mapM_ok_mem {α β : Type} (f : α → Except String β) :
    ∀ (xs : List α) (ys : List β), xs.mapM f = .ok ys →
      ∀ y ∈ ys, ∃ x, f x = .ok y := by
  intro xs
  induction xs with
  | nil =>
    intro ys h
    simp only [List.mapM_nil] at h
    cases h
    intro y hy
    cases hy
  | cons a as ih =>
    intro ys h
    rw [List.mapM_cons] at h
    cases hf : f a with
    | error e => rw [hf, except_bind_error] at h; cases h
    | ok b =>
      rw [hf, except_bind_ok] at h
      cases hm : as.mapM f with
      | error e => rw [hm, except_bind_error] at h; cases h
      | ok bs =>
        rw [hm, except_bind_ok] at h
        cases h
        intro y hy
        rcases List.mem_cons.mp hy with hb | hbs
        · exact ⟨a, by rw [hf, hb]⟩
        · exact ih bs hm y hbs

/-- `d.get` on a dict never raises and returns the looked-up value with the
default applied. -/
theorem pyDictGet_jobj (fields : List (String × JValue)) (key : String)
    (dflt : JValue) :
    pyDictGet (.jobj fields) key dflt = .ok ((fields.lookup key).getD dflt) := by
  simp only [pyDictGet]
  cases fields.lookup key <;> rfl

/-- The record built for a dict document: total defaults per field. -/
theorem toSourceRecord_jobj (fields : List (String × JValue)) :
    toSourceRecord (.jobj fields) = .ok (.jobj
      [("chunk", (fields.lookup "content_text").getD (.jstr "")),
       ("title", (fields.lookup "document_title").getD (.jstr "Unknown")),
       ("score", (fields.lookup "@search.score").getD (.jnum 0))]) := by
  simp only [toSourceRecord, pyDictGet_jobj, except_bind_ok]

/-- A successfully built record always has exactly the three keys `chunk`,
`title`, `score`, in this order. -/
theorem toSourceRecord_shape (doc r : JValue) (h : toSourceRecord doc = .ok r) :
    ∃ c t s, r = .jobj [("chunk", c), ("title", t), ("score", s)] := by
  cases doc with
  | jobj fields =>
    rw [toSourceRecord_jobj] at h
    cases h
    exact ⟨_, _, _, rfl⟩
  | jnull => cases h
  | jbool b => cases h
  | jnum q => cases h
  | jstr s => cases h
  | jarr xs => cases h

/-- A list of string values maps to a record list only when it is empty
(`doc.get` raises on a non-dict document). -/
theorem mapM_all_jstr (docs recs : List JValue)
    (hall : ∀ d ∈ docs, ∃ s, d = .jstr s)
    (h : docs.mapM toSourceRecord = .ok recs) : docs = [] := by
  cases docs with
  | nil => rfl
  | cons d ds =>
    obtain ⟨s, rfl⟩ := hall d (List.mem_cons_self d ds)
    rw [List.mapM_cons] at h
    have hd : toSourceRecord (.jstr s) =
        .error "AttributeError: object has no attribute get" := rfl
    rw [hd, except_bind_error] at h
    cases h

/-- Bind of a pure `Except` value. -/
theorem except_pure_bind {ε α β : Type} (a : α) (f : α → Except ε β) :
    ((pure a : Except ε α) >>= f) = f a := rfl

/-- Inversion of the tail of `_search_index` after the headers are built:
a successful run exposes a successful POST, a passing status check, the
`value` extraction, the iteration and the record mapping. -/
theorem search_tail_inv (svc : Services) (url : String)
    (headers : List (String × String)) (body : JValue) (recs : List JValue)
    (h : (svc.http_post url headers body >>= fun response =>
      if 400 ≤ response.status_code ∧ response.status_code < 600 then
        .error ("HTTPError: status " ++ toString response.status_code)
      else do
        let results ← pyDictGet response.body "value" (.jarr [])
        let docs ← pyIter results
        docs.mapM toSourceRecord) = .ok recs) :
    ∃ r results docs,
      svc.http_post url headers body = .ok r ∧
      ¬(400 ≤ r.status_code ∧ r.status_code < 600) ∧
      pyDictGet r.body "value" (.jarr []) = .ok results ∧
      pyIter results = .ok docs ∧
      docs.mapM toSourceRecord = .ok recs := by
  cases hp : svc.http_post url headers body with
  | error e => rw [hp, except_bind_error] at h; cases h
  | ok r =>
    rw [hp, except_bind_ok] at h
    by_cases hs : 400 ≤ r.status_code ∧ r.status_code < 600
    · rw [if_pos hs] at h; cases h
    · rw [if_neg hs] at h
      cases hv : pyDictGet r.body "value" (.jarr []) with
      | error e => rw [hv, except_bind_error] at h; cases h
      | ok results =>
        rw [hv, except_bind_ok] at h
        cases hi : pyIter results with
        | error e => rw [hi, except_bind_error] at h; cases h
        | ok docs =>
          rw [hi, except_bind_ok] at h
          exact ⟨r, results, docs, rfl, hs, hv, hi, h⟩

/-- Full inversion of a successful `_search_index` run. -/
theorem search_index_ok_inv (cfg : Config) (svc : Services) (emb : List Rat)
    (k : Int) (recs : List JValue)
    (h : search_index cfg svc emb k = .ok recs) :
    ∃ headers r results docs,
      svc.http_post (cfg.search_endpoint ++ "/indexes/" ++ cfg.search_index ++
        "/docs/search?api-version=2023-11-01") headers (searchBody emb k) = .ok r ∧
      ¬(400 ≤ r.status_code ∧ r.status_code < 600) ∧
      pyDictGet r.body "value" (.jarr []) = .ok results ∧
      pyIter results = .ok docs ∧
      docs.mapM toSourceRecord = .ok recs := by
  simp only [search_index] at h
  by_cases ha : (cfg.auth_mode == "entra") = true
  · rw [if_pos ha] at h
    cases ht : svc.get_token "https://search.azure.com/.default" with
    | error e =>
      rw [ht] at h
      simp only [except_bind_error] at h
      cases h
    | ok token =>
      rw [ht] at h
      simp only [except_bind_ok, except_pure_bind] at h
      obtain ⟨r, results, docs, h1, h2, h3, h4, h5⟩ :=
        search_tail_inv svc _ _ _ recs h
      exact ⟨_, r, results, docs, h1, h2, h3, h4, h5⟩
  · rw [if_neg ha] at h
    simp only [except_pure_bind] at h
    obtain ⟨r, results, docs, h1, h2, h3, h4, h5⟩ :=
      search_tail_inv svc _ _ _ recs h
    exact ⟨_, r, results, docs, h1, h2, h3, h4, h5⟩

/-- Under the search service's k-contract, a successful `_search_index`
returns at most `top_k` records. -/
theorem search_index_length (cfg : Config) (svc : Services) (emb : List Rat)
    (k : Int) (recs : List JValue) (hk : SearchHonorsK svc)
    (h : search_index cfg svc emb k = .ok recs) : recs.length ≤ k.toNat := by
  obtain ⟨headers, r, results, docs, hp, hst, hv, hi, hm⟩ :=
    search_index_ok_inv cfg svc emb k recs h
  have hlen := mapM_ok_length toSourceRecord docs recs hm
  cases results with
  | jarr vs =>
    have hd : vs = docs := by
      have := hi
      simp only [pyIter] at this
      cases this
      rfl
    have hb := hk _ headers emb k r vs hp hv
    rw [hlen, ← hd]
    exact hb
  | jstr s =>
    have hd : docs = s.toList.map (fun c => .jstr (String.singleton c)) := by
      have := hi
      simp only [pyIter] at this
      cases this
      rfl
    have hall : ∀ d ∈ docs, ∃ t, d = .jstr t := by
      intro d hdm
      rw [hd] at hdm
      obtain ⟨c, _, hc⟩ := List.mem_map.mp hdm
      exact ⟨String.singleton c, hc.symm⟩
    have hnil := mapM_all_jstr docs recs hall hm
    rw [hlen, hnil]
    exact Nat.zero_le _
  | jobj fields =>
    have hd : docs = fields.map (fun f => .jstr f.1) := by
      have := hi
      simp only [pyIter] at this
      cases this
      rfl
    have hall : ∀ d ∈ docs, ∃ t, d = .jstr t := by
      intro d hdm
      rw [hd] at hdm
      obtain ⟨f, _, hf⟩ := List.mem_map.mp hdm
      exact ⟨f.1, hf.symm⟩
    have hnil := mapM_all_jstr docs recs hall hm
    rw [hlen, hnil]
    exact Nat.zero_le _
  | jnull => cases hi
  | jbool b => cases hi
  | jnum q => cases hi

/-- Inversion of a successful run of the try block: each stage succeeded
and fed the next. -/
theorem chatPipeline_ok_inv (cfg : Config) (svc : Services) (m : String)
    (k : Int) (r : String) (ctx : List JValue)
    (h : chatPipeline cfg svc m k = .ok (r, ctx)) :
    ∃ emb, generate_embedding cfg svc m = .ok emb ∧
      search_index cfg svc emb k = .ok ctx ∧
      generate_response cfg svc m ctx = .ok r := by
  simp only [chatPipeline] at h
  cases he : generate_embedding cfg svc m with
  | error e => rw [he, except_bind_error] at h; cases h
  | ok emb =>
    rw [he, except_bind_ok] at h
    cases hs : search_index cfg svc emb k with
    | error e => rw [hs, except_bind_error] at h; cases h
    | ok ctx2 =>
      rw [hs, except_bind_ok] at h
      cases hg : generate_response cfg svc m ctx2 with
      | error e => rw [hg, except_bind_error] at h; cases h
      | ok r2 =>
        rw [hg, except_bind_ok] at h
        cases h
        exact ⟨emb, rfl, hs, hg⟩

/-- Forward composition: three successful stages make a successful try
block. -/
theorem chatPipeline_of_stages (cfg : Config) (svc : Services) (m : String)
    (k : Int) (emb : List Rat) (ctx : List JValue) (r : String)
    (h1 : generate_embedding cfg svc m = .ok emb)
    (h2 : search_index cfg svc emb k = .ok ctx)
    (h3 : generate_response cfg svc m ctx = .ok r) :
    chatPipeline cfg svc m k = .ok (r, ctx) := by
  simp only [chatPipeline]
  rw [h1, except_bind_ok, h2, except_bind_ok, h3, except_bind_ok]

/-- A failing embedding stage fails the whole try block with the same
exception text. -/
theorem chatPipeline_embed_error (cfg : Config) (svc : Services) (m : String)
    (k : Int) (e : String)
    (h : generate_embedding cfg svc m = .error e) :
    chatPipeline cfg svc m k = .error e := by
  simp only [chatPipeline]
  rw [h, except_bind_error]

/-- The success envelope of `chat`. -/
theorem chat_ok_shape (cfg : Config) (svc : Services) (m : String) (k : Int)
    (r : String) (ctx : List JValue)
    (h : chatPipeline cfg svc m k = .ok (r, ctx)) :
    chat cfg svc m k = .jobj [("response", .jstr r),
      ("sources", .jarr ctx), ("query", .jstr m)] := by
  simp only [chat, h]

/-- The degraded envelope of `chat`. -/
theorem chat_error_shape (cfg : Config) (svc : Services) (m : String)
    (k : Int) (e : String)
    (h : chatPipeline cfg svc m k = .error e) :
    chat cfg svc m k = .jobj
      [("response",
        .jstr ("I encountered an error while processing your request: " ++ e)),
       ("sources", .jarr []),
       ("query", .jstr m),
       ("error", .jstr e)] := by
  simp only [chat, h]

/-! ### Claim theorems -/

/-- C1: in every run of `chat` in which all three stages succeed, the
`sources` list of the returned envelope is exactly — same elements, same
order, no filtering or re-sorting — the list the search stage produced and
the generation stage was given. -/
theorem chat_sources_are_search_results (cfg : Config) (svc : Services)
    (m : String) (k : Int) (emb : List Rat) (ctx : List JValue) (r : String)
    (h1 : generate_embedding cfg svc m = .ok emb)
    (h2 : search_index cfg svc emb k = .ok ctx)
    (h3 : generate_response cfg svc m ctx = .ok r) :
    chat cfg svc m k = .jobj [("response", .jstr r),
      ("sources", .jarr ctx), ("query", .jstr m)] :=
  chat_ok_shape cfg svc m k r ctx
    (chatPipeline_of_stages cfg svc m k emb ctx r h1 h2 h3)

/-- Witness for C1: the concrete all-success services return exactly the
one retrieved record, unchanged, as `sources`. -/
theorem chat_sources_are_search_results_witness :
    chat cfg0 svcOk "What is BMW circularity" 5 =
      .jobj [("response", .jstr "GENERATED"),
        ("sources", .jarr [rec0]),
        ("query", .jstr "What is BMW circularity")] :=
  chat_sources_are_search_results cfg0 svcOk "What is BMW circularity" 5
    [(1 : Rat)] [rec0] "GENERATED" rfl rfl rfl

/-- C2: any exception raised inside the try block (by any of the three
stages) is caught, and `chat` — a total function here, so it can never
re-raise — returns the envelope with empty `sources`, the apologetic
message embedding the exception text, and the explicit `error` field. -/
theorem chat_converts_stage_errors (cfg : Config) (svc : Services)
    (m : String) (k : Int) (e : String)
    (h : chatPipeline cfg svc m k = .error e) :
    chat cfg svc m k = .jobj
      [("response",
        .jstr ("I encountered an error while processing your request: " ++ e)),
       ("sources", .jarr []),
       ("query", .jstr m),
       ("error", .jstr e)] :=
  chat_error_shape cfg svc m k e h

/-- Witness for C2: a concrete embedding failure with text `"boom"`. -/
theorem chat_converts_stage_errors_witness :
    chat cfg0 svcEmbedFail "hi" 5 = .jobj
      [("response",
        .jstr ("I encountered an error while processing your request: " ++ "boom")),
       ("sources", .jarr []),
       ("query", .jstr "hi"),
       ("error", .jstr "boom")] :=
  chat_converts_stage_errors cfg0 svcEmbedFail "hi" 5 "boom" rfl

/-- C3: the `query` field of the envelope equals the literal input message
in the success case and in the error case alike. -/
theorem chat_query_echoes_input (cfg : Config) (svc : Services) (m : String)
    (k : Int) :
    pyLookup (chat cfg svc m k) "query" = some (.jstr m) := by
  cases h : chatPipeline cfg svc m k with
  | ok p =>
    cases p with
    | mk r ctx => rw [chat_ok_shape cfg svc m k r ctx h]; rfl
  | error e => rw [chat_error_shape cfg svc m k e h]; rfl

/-- C5: whenever the embedding stage raises, the envelope carries the
`error` field populated with the exception text and an empty `sources`
list. -/
theorem chat_embed_failure_error_field (cfg : Config) (svc : Services)
    (m : String) (k : Int) (e : String)
    (h : generate_embedding cfg svc m = .error e) :
    pyLookup (chat cfg svc m k) "error" = some (.jstr e) ∧
    envelopeSources (chat cfg svc m k) = [] := by
  rw [chat_error_shape cfg svc m k e (chatPipeline_embed_error cfg svc m k e h)]
  exact ⟨rfl, rfl⟩

/-- Witness for C5 at the concrete failing embedding service. -/
theorem chat_embed_failure_error_field_witness :
    pyLookup (chat cfg0 svcEmbedFail "hi" 5) "error" = some (.jstr "boom") ∧
    envelopeSources (chat cfg0 svcEmbedFail "hi" 5) = [] :=
  chat_embed_failure_error_field cfg0 svcEmbedFail "hi" 5 "boom" rfl

/-- C6 counterexample: `chat` contains no emptiness (or any other) check —
on the empty message the full pipeline still runs: the services are
consulted, their answer and the retrieved source surface in a success
envelope, and no `error` field is set. -/
theorem chat_empty_message_runs_pipeline_cex :
    chat cfg0 svcOk "" 5 = .jobj [("response", .jstr "GENERATED"),
      ("sources", .jarr [rec0]), ("query", .jstr "")] ∧
    pyHasKey (chat cfg0 svcOk "" 5) "error" = false :=
  ⟨rfl, rfl⟩

/-- C6 amended: the chat operation applies no validation to the message at
all — an empty message is embedded, searched and answered exactly like any
other (the non-emptiness filter lives only in the interactive CLI loop,
which skips blank lines before calling `chat`). -/
theorem chat_applies_no_validation (cfg : Config) (svc : Services) (k : Int)
    (emb : List Rat) (ctx : List JValue) (r : String)
    (h1 : generate_embedding cfg svc "" = .ok emb)
    (h2 : search_index cfg svc emb k = .ok ctx)
    (h3 : generate_response cfg svc "" ctx = .ok r) :
    chat cfg svc "" k = .jobj [("response", .jstr r),
      ("sources", .jarr ctx), ("query", .jstr "")] :=
  chat_ok_shape cfg svc "" k r ctx
    (chatPipeline_of_stages cfg svc "" k emb ctx r h1 h2 h3)

/-- Witness for the amended C6: the empty message flows through all three
stages. -/
theorem chat_applies_no_validation_witness :
    chat cfg0 svcOk "" 7 = .jobj [("response", .jstr "GENERATED"),
      ("sources", .jarr [rec0]), ("query", .jstr "")] :=
  chat_applies_no_validation cfg0 svcOk 7 [(1 : Rat)] [rec0] "GENERATED"
    rfl rfl rfl

/-- C4: whenever the external search service honors the `k` of the vector
query (its documented contract), the `sources` list of every `chat`
envelope has at most `top_k` elements (and, being a list, at least 0); the
`top_k` default used when the caller supplies none is 5. -/
theorem chat_sources_length_le_top_k (cfg : Config) (svc : Services)
    (m : String) (k : Int) (hk : SearchHonorsK svc) :
    (envelopeSources (chat cfg svc m k)).length ≤ k.toNat ∧
    chat_default cfg svc m = chat cfg svc m 5 := by
  constructor
  · cases h : chatPipeline cfg svc m k with
    | error e =>
      rw [chat_error_shape cfg svc m k e h]
      exact Nat.zero_le _
    | ok p =>
      cases p with
      | mk r ctx =>
        rw [chat_ok_shape cfg svc m k r ctx h]
        obtain ⟨emb, he, hsi, hg⟩ := chatPipeline_ok_inv cfg svc m k r ctx h
        exact search_index_length cfg svc emb k ctx hk hsi
  · rfl

/-- The zero-match search service honors every `k`. -/
theorem searchHonorsK_svcEmptySearch : SearchHonorsK svcEmptySearch := by
  intro url headers emb k r vs hp hv
  cases hp
  cases hv
  exact Nat.zero_le _

/-- Witness for C4 at the zero-match search service and `top_k = 3`. -/
theorem chat_sources_length_le_top_k_witness :
    (envelopeSources (chat cfg0 svcEmptySearch "hi" 3)).length ≤ (3 : Int).toNat ∧
    chat_default cfg0 svcEmptySearch "hi" = chat cfg0 svcEmptySearch "hi" 5 :=
  chat_sources_length_le_top_k cfg0 svcEmptySearch "hi" 3
    searchHonorsK_svcEmptySearch

/-- C7: the generation stage consults the completion service with exactly
the two-message prompt — the fixed system instruction, then the single user
message embedding the query and the `json.dumps` serialization of the
retrieved documents — at temperature 0.7 (the rational 7/10 of this
model), and returns the text of the first completion choice. -/
theorem generate_response_prompt_contract (cfg : Config) (svc : Services)
    (q : String) (ctx : List JValue) (c : Choice) (rest : List Choice)
    (h : svc.chat_completions_create cfg.chat_model
      [⟨"system", system_prompt⟩, ⟨"user", user_message_text q ctx⟩]
      (7 / 10 : Rat) = .ok ⟨c :: rest⟩) :
    generate_response cfg svc q ctx = .ok c.message.content := by
  simp only [generate_response, h, except_bind_ok]

/-- Witness for C7: the concrete completion service answers the two-message
prompt and its first choice is returned. -/
theorem generate_response_prompt_contract_witness :
    generate_response cfg0 svcOk "hi" [] = .ok "GENERATED" :=
  generate_response_prompt_contract cfg0 svcOk "hi" [] ⟨⟨"GENERATED"⟩⟩ [] rfl

/-- C9: every record of a successful search run has exactly the three keys
`chunk`, `title`, `score` (in this order), and on any dict document the
three field reads are total with defaults `""`, `"Unknown"` and `0`, so a
missing selected field can never fail the stage or drop a key. -/
theorem search_records_three_keys (cfg : Config) (svc : Services)
    (emb : List Rat) (k : Int) (recs : List JValue)
    (h : search_index cfg svc emb k = .ok recs) :
    (∀ r ∈ recs, ∃ c t s, r = .jobj [("chunk", c), ("title", t), ("score", s)]) ∧
    (∀ fields : List (String × JValue), toSourceRecord (.jobj fields) = .ok (.jobj
      [("chunk", (fields.lookup "content_text").getD (.jstr "")),
       ("title", (fields.lookup "document_title").getD (.jstr "Unknown")),
       ("score", (fields.lookup "@search.score").getD (.jnum 0))])) := by
  constructor
  · obtain ⟨headers, rr, results, docs, hp, hst, hv, hi, hm⟩ :=
      search_index_ok_inv cfg svc emb k recs h
    intro r hr
    obtain ⟨doc, hdoc⟩ := mapM_ok_mem toSourceRecord docs recs hm r hr
    exact toSourceRecord_shape doc r hdoc
  · intro fields
    exact toSourceRecord_jobj fields

/-- Witness for C9: the concrete retrieved record has the three keys. -/
theorem search_records_three_keys_witness :
    ∃ c t s, rec0 = .jobj [("chunk", c), ("title", t), ("score", s)] :=
  (search_records_three_keys cfg0 svcOk [(1 : Rat)] 5 [rec0] rfl).1 rec0
    (List.mem_singleton.mpr rfl)

/-- The endpoint's 200 branch, from a successful try block. -/
theorem chat_endpoint_ok_shape (cfg : Config) (svc : Services) (m : String)
    (k : Int) (r : String) (ctx : List JValue)
    (h : chatPipeline cfg svc m k = .ok (r, ctx)) :
    chat_endpoint cfg svc m k = .ok (.jobj [("response", .jstr r),
      ("sources", .jarr ctx), ("query", .jstr m)]) := by
  have hc := chat_ok_shape cfg svc m k r ctx h
  simp only [chat_endpoint, hc]
  rfl

/-- The endpoint's 500 branch, from a failing try block: the inner
`HTTPException` carrying the error text is re-wrapped by the blanket
`except`, so the detail is `"500: "` followed by the error text. -/
theorem chat_endpoint_error_shape (cfg : Config) (svc : Services)
    (m : String) (k : Int) (e : String)
    (h : chatPipeline cfg svc m k = .error e) :
    chat_endpoint cfg svc m k = .httpError 500 ("500: " ++ e) := by
  have hc := chat_error_shape cfg svc m k e h
  simp only [chat_endpoint, hc]
  rfl

/-- C8: a `POST /chat` request 500s — with a detail carrying the error
text, here wrapped as `"500: " ++ e` by the endpoint's own re-raise —
exactly when the chat envelope carries an `error` field, and otherwise
returns the `{response, sources, query}` envelope as the success body;
the two branches are exhaustive, so there is no partial-success outcome. -/
theorem chat_endpoint_error_iff (cfg : Config) (svc : Services) (m : String)
    (k : Int) :
    (∀ r ctx, chatPipeline cfg svc m k = .ok (r, ctx) →
      chat_endpoint cfg svc m k = .ok (.jobj [("response", .jstr r),
        ("sources", .jarr ctx), ("query", .jstr m)])) ∧
    (∀ e, chatPipeline cfg svc m k = .error e →
      chat_endpoint cfg svc m k = .httpError 500 ("500: " ++ e)) ∧
    ((∃ s d, chat_endpoint cfg svc m k = .httpError s d) ↔
      pyHasKey (chat cfg svc m k) "error" = true) := by
  refine ⟨fun r ctx h => chat_endpoint_ok_shape cfg svc m k r ctx h,
    fun e h => chat_endpoint_error_shape cfg svc m k e h, ?_⟩
  constructor
  · rintro ⟨s, d, hsd⟩
    cases h : chatPipeline cfg svc m k with
    | ok p =>
      cases p with
      | mk r ctx =>
        rw [chat_endpoint_ok_shape cfg svc m k r ctx h] at hsd
        cases hsd
    | error e =>
      rw [chat_error_shape cfg svc m k e h]
      rfl
  · intro hkey
    cases h : chatPipeline cfg svc m k with
    | ok p =>
      cases p with
      | mk r ctx =>
        rw [chat_ok_shape cfg svc m k r ctx h] at hkey
        cases hkey
    | error e =>
      exact ⟨500, "500: " ++ e, chat_endpoint_error_shape cfg svc m k e h⟩

/-- Witness for C8: the embedding failure surfaces as a 500 whose detail
wraps the error text. -/
theorem chat_endpoint_error_iff_witness :
    chat_endpoint cfg0 svcEmbedFail "hi" 5 = .httpError 500 ("500: " ++ "boom") :=
  (chat_endpoint_error_iff cfg0 svcEmbedFail "hi" 5).2.1 "boom" rfl

/-- C10: a successful run's envelope is exactly the dict with the keys
`response`, `sources`, `query` — no `error` key — and the presence of the
`error` key characterizes exactly the runs in which the try block raised. -/
theorem chat_envelope_error_key_iff (cfg : Config) (svc : Services)
    (m : String) (k : Int) :
    (∀ r ctx, chatPipeline cfg svc m k = .ok (r, ctx) →
      chat cfg svc m k = .jobj [("response", .jstr r),
        ("sources", .jarr ctx), ("query", .jstr m)]) ∧
    (pyHasKey (chat cfg svc m k) "error" = true ↔
      ∃ e, chatPipeline cfg svc m k = .error e) := by
  refine ⟨fun r ctx h => chat_ok_shape cfg svc m k r ctx h, ?_⟩
  cases h : chatPipeline cfg svc m k with
  | ok p =>
    cases p with
    | mk r ctx =>
      rw [chat_ok_shape cfg svc m k r ctx h]
      constructor
      · intro hkey
        cases hkey
      · rintro ⟨e, he⟩
        cases he
  | error e =>
    rw [chat_error_shape cfg svc m k e h]
    constructor
    · intro _
      exact ⟨e, rfl⟩
    · intro _
      rfl

/-- Witness for C10: the success envelope of the concrete services. -/
theorem chat_envelope_error_key_iff_witness :
    chat cfg0 svcOk "hi" 5 = .jobj [("response", .jstr "GENERATED"),
      ("sources", .jarr [rec0]), ("query", .jstr "hi")] :=
  (chat_envelope_error_key_iff cfg0 svcOk "hi" 5).1 "GENERATED" [rec0] rfl
